import Mathlib

/-!
# Verification of the SPOT2 GPS controller (src/SPOT2_Controller.ino)

Shallow embedding of the Arduino sketch.  The state-machine layer
(globals `SpotGPSState`, `q8SecondBlocks`, `counter8s`, functions
`action` and `EightSeconds`) is embedded as pure state-passing
functions that additionally emit the list of Device Action Primitives
invoked.  The four primitives (`Spot_Turn_On`, `Spot_Turn_Off`,
`Spot_Message_OK`, `Spot_Message_Custom`) are embedded at the I/O
level as trace-producing functions; the feedback line (pin
`SpotOn3VSense`) is an environment function giving the value returned
by the k-th `digitalRead` of that pin, and the unbounded polling loops
take explicit fuel.

Correspondence of the spec names to the source enumerators:
PowerOff = Power_Off, PoweredOnPendingMessageA = Power_On,
SendingMessageA = Sending_Ok, PowerOff2 = Power_Off_2,
PoweredOnPendingMessageB = Power_On_2, SendingMessageB = Sending_Custom.
N = kSpotOnTime (38), M = kSpotOffTime (60).
-/

set_option maxRecDepth 100000

namespace SPOT2

/-- Pin number constants, copied from the source. -/
def LED : Nat := 13

def SpotOnOffButton : Nat := 9

def SpotOn3VSense : Nat := 12

def SpotOkMsgButton : Nat := 10

def SpotCustomMsgButton : Nat := 11

/-- Off-dwell in 8-second blocks (the constant M of the spec). -/
def kSpotOffTime : Int := 60

/-- On/send dwell in 8-second blocks (the constant N of the spec). -/
def kSpotOnTime : Int := 38

/-- Enumerator values of SpotGPSState_Type.  The C++ enum has no
explicit values, so they are 0..5; the state variable is modelled as an
Int so that out-of-range (corrupted) values can be discussed. -/
def Power_Off : Int := 0

def Power_On : Int := 1

def Sending_Ok : Int := 2

def Power_Off_2 : Int := 3

def Power_On_2 : Int := 4

def Sending_Custom : Int := 5

/-- Labels for the four Device Action Primitives called by the state
machine: Spot_Turn_On, Spot_Turn_Off, Spot_Message_OK,
Spot_Message_Custom. -/
inductive Prim where
  | powerOn : Prim
  | powerOff : Prim
  | sendOK : Prim
  | sendCustom : Prim
  deriving DecidableEq, Repr

/-- The three global variables of the sketch that the scheduler and
state machine read and write. -/
structure MachineState where
  SpotGPSState : Int
  q8SecondBlocks : Int
  counter8s : Int
  deriving DecidableEq, Repr

/-- The global state established by setup(). -/
def setupState : MachineState :=
  { SpotGPSState := Power_Off, q8SecondBlocks := 1, counter8s := 0 }

/-- Embedding of action(): the switch over SpotGPSState.  Returns the
updated globals together with the (singleton) list of Device Action
Primitives invoked during the call, in invocation order. -/
def action (s : MachineState) : MachineState × List Prim :=
  if s.SpotGPSState = Power_Off then
    ({ s with SpotGPSState := Power_On, q8SecondBlocks := 1 }, [Prim.powerOn])
  else if s.SpotGPSState = Power_On then
    ({ s with SpotGPSState := Sending_Ok, q8SecondBlocks := kSpotOnTime }, [Prim.sendOK])
  else if s.SpotGPSState = Sending_Ok then
    ({ s with SpotGPSState := Power_Off_2, q8SecondBlocks := kSpotOffTime }, [Prim.powerOff])
  else if s.SpotGPSState = Power_Off_2 then
    ({ s with SpotGPSState := Power_On_2, q8SecondBlocks := 1 }, [Prim.powerOn])
  else if s.SpotGPSState = Power_On_2 then
    ({ s with SpotGPSState := Sending_Custom, q8SecondBlocks := kSpotOnTime }, [Prim.sendCustom])
  else if s.SpotGPSState = Sending_Custom then
    ({ s with SpotGPSState := Power_Off, q8SecondBlocks := kSpotOffTime }, [Prim.powerOff])
  else
    ({ s with SpotGPSState := Power_Off, q8SecondBlocks := kSpotOffTime }, [Prim.powerOff])

/-- Embedding of EightSeconds(): increment counter8s; if it has reached
q8SecondBlocks, reset it to 0 and call action() once. -/
def EightSeconds (s : MachineState) : MachineState × List Prim :=
  if s.counter8s + 1 ≥ s.q8SecondBlocks then
    action { s with counter8s := 0 }
  else
    ({ s with counter8s := s.counter8s + 1 }, [])

/-- Run n wake-timer ticks from the setup() state, collecting every
primitive invocation tagged with the 1-based tick at which it fired. -/
def run : Nat → MachineState × List (Nat × Prim)
  | 0 => (setupState, [])
  | n + 1 =>
    let r := run n
    let step := EightSeconds r.1
    (step.1, r.2 ++ step.2.map (fun p => (n + 1, p)))

example : (run 3).2 = [(1, Prim.powerOn), (2, Prim.sendOK)] := by decide

example : (run 40).2 =
    [(1, Prim.powerOn), (2, Prim.sendOK), (40, Prim.powerOff)] := by decide

/-! ## I/O-level embedding of the Device Action Primitives -/

/-- Pin direction argument of pinMode. -/
inductive PinMode where
  | input : PinMode
  | output : PinMode
  deriving DecidableEq, Repr

/-- Observable I/O events emitted by the primitives.  HIGH is `true`,
LOW is `false`.  A digitalReadEv records the pin read and the level the
environment returned. -/
inductive IOEvent where
  | pinModeEv : Nat → PinMode → IOEvent
  | digitalWriteEv : Nat → Bool → IOEvent
  | digitalReadEv : Nat → Bool → IOEvent
  | delayEv : Nat → IOEvent
  | wdtResetEv : IOEvent
  deriving DecidableEq, Repr

/-- Embedding of the feedback-polling while-loop shared by
Spot_Turn_On (target = HIGH) and Spot_Turn_Off (target = LOW):
while (digitalRead(SpotOn3VSense) != target) do delay(100); wdt_reset().
fb k is the level returned by the k-th digitalRead of the sense pin in
this primitive invocation; i is the index of the next read; fuel bounds
the number of reads so the unbounded loop is a total function. -/
def pollSense (target : Bool) (fb : Nat → Bool) : Nat → Nat → Option (List IOEvent)
  | _, 0 => none
  | i, fuel + 1 =>
    if fb i = target then
      some [IOEvent.digitalReadEv SpotOn3VSense target]
    else
      match pollSense target fb (i + 1) fuel with
      | none => none
      | some evs =>
        some (IOEvent.digitalReadEv SpotOn3VSense (fb i) ::
              IOEvent.delayEv 100 :: IOEvent.wdtResetEv :: evs)

/-- Embedding of Spot_Turn_On(): read the sense pin; if LOW, press the
power button, light the LED, poll the sense pin until HIGH, release the
button and turn the LED off; if already HIGH, do nothing further. -/
def Spot_Turn_On (fb : Nat → Bool) (fuel : Nat) : Option (List IOEvent) :=
  if fb 0 = false then
    match pollSense true fb 1 fuel with
    | none => none
    | some loopEvs =>
      some ([IOEvent.pinModeEv SpotOn3VSense PinMode.input,
             IOEvent.digitalReadEv SpotOn3VSense (fb 0),
             IOEvent.pinModeEv SpotOnOffButton PinMode.output,
             IOEvent.digitalWriteEv SpotOnOffButton false,
             IOEvent.pinModeEv LED PinMode.output,
             IOEvent.digitalWriteEv LED true,
             IOEvent.pinModeEv SpotOn3VSense PinMode.input] ++ loopEvs ++
            [IOEvent.digitalWriteEv SpotOnOffButton true,
             IOEvent.pinModeEv SpotOnOffButton PinMode.input,
             IOEvent.digitalWriteEv LED false,
             IOEvent.pinModeEv LED PinMode.input])
  else
    some [IOEvent.pinModeEv SpotOn3VSense PinMode.input,
          IOEvent.digitalReadEv SpotOn3VSense (fb 0)]

/-- Embedding of Spot_Turn_Off(): read the sense pin; if HIGH, press
the power button, light the LED, poll the sense pin until LOW, release
the button and turn the LED off; if already LOW, do nothing further. -/
def Spot_Turn_Off (fb : Nat → Bool) (fuel : Nat) : Option (List IOEvent) :=
  if fb 0 = true then
    match pollSense false fb 1 fuel with
    | none => none
    | some loopEvs =>
      some ([IOEvent.pinModeEv SpotOn3VSense PinMode.input,
             IOEvent.digitalReadEv SpotOn3VSense (fb 0),
             IOEvent.pinModeEv SpotOnOffButton PinMode.output,
             IOEvent.digitalWriteEv SpotOnOffButton false,
             IOEvent.pinModeEv LED PinMode.output,
             IOEvent.digitalWriteEv LED true,
             IOEvent.pinModeEv SpotOn3VSense PinMode.input] ++ loopEvs ++
            [IOEvent.digitalWriteEv SpotOnOffButton true,
             IOEvent.pinModeEv SpotOnOffButton PinMode.input,
             IOEvent.digitalWriteEv LED false,
             IOEvent.pinModeEv LED PinMode.input])
  else
    some [IOEvent.pinModeEv SpotOn3VSense PinMode.input,
          IOEvent.digitalReadEv SpotOn3VSense (fb 0)]

/-- Embedding of Spot_Message_OK(): press the OK-message button, light
the LED, hold for 4000 ms, release the button, LED off. -/
def Spot_Message_OK : List IOEvent :=
  [IOEvent.pinModeEv SpotOkMsgButton PinMode.output,
   IOEvent.digitalWriteEv SpotOkMsgButton false,
   IOEvent.pinModeEv LED PinMode.output,
   IOEvent.digitalWriteEv LED true,
   IOEvent.delayEv 4000,
   IOEvent.digitalWriteEv SpotOkMsgButton true,
   IOEvent.pinModeEv SpotOkMsgButton PinMode.input,
   IOEvent.digitalWriteEv LED false,
   IOEvent.pinModeEv LED PinMode.input]

/-- Embedding of Spot_Message_Custom(): press the custom-message
button, light the LED, hold for 4000 ms, release the button, LED off. -/
def Spot_Message_Custom : List IOEvent :=
  [IOEvent.pinModeEv SpotCustomMsgButton PinMode.output,
   IOEvent.digitalWriteEv SpotCustomMsgButton false,
   IOEvent.pinModeEv LED PinMode.output,
   IOEvent.digitalWriteEv LED true,
   IOEvent.delayEv 4000,
   IOEvent.digitalWriteEv SpotCustomMsgButton true,
   IOEvent.pinModeEv SpotCustomMsgButton PinMode.input,
   IOEvent.digitalWriteEv LED false,
   IOEvent.pinModeEv LED PinMode.input]

/-! ## Predicates on event traces -/

/-- Whether the event is a digitalRead. -/
def isReadEv : IOEvent → Bool
  | IOEvent.digitalReadEv _ _ => true
  | _ => false

/-- Whether the event drives an output line: any digitalWrite, or any
pinMode that switches a pin to OUTPUT. -/
def drivesPin : IOEvent → Bool
  | IOEvent.digitalWriteEv _ _ => true
  | IOEvent.pinModeEv _ PinMode.output => true
  | _ => false

/-- Whether the event touches the LED pin. -/
def isLedEvent : IOEvent → Bool
  | IOEvent.pinModeEv p _ => p == LED
  | IOEvent.digitalWriteEv p _ => p == LED
  | _ => false

/-- The diagnostic LED pulse: within the trace, the LED events are
exactly configure-as-output, write HIGH (on), then write LOW (off) and
return to input — LED on once near the start, off once at the end. -/
def ledPulse (evs : List IOEvent) : Prop :=
  evs.filter isLedEvent =
    [IOEvent.pinModeEv LED PinMode.output, IOEvent.digitalWriteEv LED true,
     IOEvent.digitalWriteEv LED false, IOEvent.pinModeEv LED PinMode.input]

/-- Number of wdt_reset (watchdog feed) events in a trace. -/
def countWdt : List IOEvent → Nat
  | [] => 0
  | IOEvent.wdtResetEv :: rest => countWdt rest + 1
  | _ :: rest => countWdt rest

/-- Scan of a trace checking that the watchdog is fed between any two
digitalReads: waiting records that a read has been seen with no
wdt_reset since; a second read while waiting fails the check. -/
def feedsOk (waiting : Bool) : List IOEvent → Bool
  | [] => true
  | e :: rest =>
    match e with
    | IOEvent.digitalReadEv _ _ => !waiting && feedsOk true rest
    | IOEvent.wdtResetEv => feedsOk false rest
    | _ => feedsOk waiting rest

example : pollSense true (fun n => n ≥ 3) 1 5 =
    some [IOEvent.digitalReadEv SpotOn3VSense false, IOEvent.delayEv 100,
          IOEvent.wdtResetEv,
          IOEvent.digitalReadEv SpotOn3VSense false, IOEvent.delayEv 100,
          IOEvent.wdtResetEv,
          IOEvent.digitalReadEv SpotOn3VSense true] := by decide

example : Spot_Turn_On (fun _ => true) 0 =
    some [IOEvent.pinModeEv SpotOn3VSense PinMode.input,
          IOEvent.digitalReadEv SpotOn3VSense true] := by decide

/-! ## Helper lemmas on the state machine -/

/-- The list of the six defined enumerator values. -/
def definedStates : List Int :=
  [Power_Off, Power_On, Sending_Ok, Power_Off_2, Power_On_2, Sending_Custom]

/-- action() never touches counter8s. -/
theorem action_counter8s (s : MachineState) :
    ((action s).1).counter8s = s.counter8s := by
  unfold action
  repeat' split
  all_goals rfl

/-- Every call of action() invokes exactly one Device Action Primitive. -/
theorem action_length_one (s : MachineState) : ((action s).2).length = 1 := by
  unfold action
  repeat' split
  all_goals rfl

/-- After any call of action(), the state is one of the six defined
values and the threshold is 1, kSpotOnTime or kSpotOffTime. -/
theorem action_establishes_inv (s : MachineState) :
    ((action s).1).SpotGPSState ∈ definedStates ∧
    ((action s).1).q8SecondBlocks ∈ ([1, kSpotOnTime, kSpotOffTime] : List Int) := by
  unfold action
  repeat' split
  all_goals simp [definedStates, Power_Off, Power_On, Sending_Ok,
    Power_Off_2, Power_On_2, Sending_Custom, kSpotOnTime, kSpotOffTime]

/-- After any call of action(), the new threshold is at least 1. -/
theorem action_q_pos (s : MachineState) :
    1 ≤ ((action s).1).q8SecondBlocks := by
  have h := (action_establishes_inv s).2
  simp only [List.mem_cons, List.not_mem_nil, or_false] at h
  rcases h with h | h | h <;> rw [h] <;> norm_num [kSpotOnTime, kSpotOffTime]

/-- Unfolding of one tick of run. -/
theorem run_succ_state (n : Nat) :
    (run (n + 1)).1 = (EightSeconds (run n).1).1 := rfl

/-- Reaching equal states at two ticks makes all later states equal. -/
theorem run_state_shift (a b : Nat) (h : (run a).1 = (run b).1) :
    ∀ k : Nat, (run (a + k)).1 = (run (b + k)).1 := by
  intro k
  induction k with
  | zero => simpa using h
  | succ k ih =>
    have ha : a + (k + 1) = (a + k) + 1 := by omega
    have hb : b + (k + 1) = (b + k) + 1 := by omega
    rw [ha, hb, run_succ_state, run_succ_state, ih]

/-- Invariant of the tick accumulator on all reachable states: the
counter is nonnegative and strictly below the threshold. -/
theorem run_counter_inv (n : Nat) :
    0 ≤ ((run n).1).counter8s ∧
    ((run n).1).counter8s < ((run n).1).q8SecondBlocks := by
  induction n with
  | zero => exact ⟨le_refl 0, by norm_num [run, setupState]⟩
  | succ n ih =>
    rw [run_succ_state]
    unfold EightSeconds
    split
    · refine ⟨?_, ?_⟩
      · rw [action_counter8s]
      · rw [action_counter8s]
        exact lt_of_lt_of_le Int.zero_lt_one (action_q_pos _)
    · rename_i hlt
      simp only [ge_iff_le, not_le] at hlt
      obtain ⟨ih1, ih2⟩ := ih
      constructor
      · show (0 : Int) ≤ (run n).1.counter8s + 1
        omega
      · show (run n).1.counter8s + 1 < (run n).1.q8SecondBlocks
        exact hlt

/-! ## Helper lemmas on the polling loop -/

/-- If the polling loop returned, the feedback line did read the target
level at some read index at or after the starting one. -/
theorem pollSense_found (t : Bool) (fb : Nat → Bool) :
    ∀ fuel i evs, pollSense t fb i fuel = some evs →
      ∃ n, i ≤ n ∧ fb n = t := by
  intro fuel
  induction fuel with
  | zero =>
    intro i evs h
    simp [pollSense] at h
  | succ fuel ih =>
    intro i evs h
    by_cases hi : fb i = t
    · exact ⟨i, le_refl i, hi⟩
    · rw [pollSense, if_neg hi] at h
      cases hp : pollSense t fb (i + 1) fuel with
      | none => rw [hp] at h; exact absurd h (by simp)
      | some evs2 =>
        obtain ⟨n, hn, hf⟩ := ih (i + 1) evs2 hp
        exact ⟨n, by omega, hf⟩

/-- If the feedback line reads the target level at some read index
within the fuel bound, the polling loop returns. -/
theorem pollSense_succeeds (t : Bool) (fb : Nat → Bool) :
    ∀ fuel i, (∃ n, i ≤ n ∧ n < i + fuel ∧ fb n = t) →
      ∃ evs, pollSense t fb i fuel = some evs := by
  intro fuel
  induction fuel with
  | zero =>
    rintro i ⟨n, h1, h2, _⟩
    omega
  | succ fuel ih =>
    rintro i ⟨n, h1, h2, h3⟩
    by_cases hi : fb i = t
    · exact ⟨_, by rw [pollSense, if_pos hi]⟩
    · have hn : i + 1 ≤ n := by
        rcases Nat.eq_or_lt_of_le h1 with rfl | h
        · exact absurd h3 hi
        · omega
      obtain ⟨evs, hevs⟩ := ih (i + 1) ⟨n, hn, by omega, h3⟩
      exact ⟨_, by rw [pollSense, if_neg hi, hevs]⟩

/-- Every event of the polling loop is a read of the sense pin, a
100 ms delay, or a watchdog reset. -/
theorem pollSense_events (t : Bool) (fb : Nat → Bool) :
    ∀ fuel i evs, pollSense t fb i fuel = some evs →
      ∀ e ∈ evs, (∃ v, e = IOEvent.digitalReadEv SpotOn3VSense v) ∨
        e = IOEvent.delayEv 100 ∨ e = IOEvent.wdtResetEv := by
  intro fuel
  induction fuel with
  | zero =>
    intro i evs h
    simp [pollSense] at h
  | succ fuel ih =>
    intro i evs h
    by_cases hi : fb i = t
    · rw [pollSense, if_pos hi] at h
      cases h
      intro e he
      simp only [List.mem_singleton] at he
      exact Or.inl ⟨t, he⟩
    · rw [pollSense, if_neg hi] at h
      cases hp : pollSense t fb (i + 1) fuel with
      | none =>
        rw [hp] at h
        exact absurd h (by simp)
      | some evs2 =>
        rw [hp] at h
        cases h
        intro e he
        simp only [List.mem_cons] at he
        rcases he with rfl | rfl | rfl | he
        · exact Or.inl ⟨fb i, rfl⟩
        · exact Or.inr (Or.inl rfl)
        · exact Or.inr (Or.inr rfl)
        · exact ih (i + 1) evs2 hp e he

/-- The polling loop feeds the watchdog between any two reads of the
sense pin, and feeds it exactly once per completed loop iteration (one
fewer than the number of reads). -/
theorem pollSense_feeds (t : Bool) (fb : Nat → Bool) :
    ∀ fuel i evs, pollSense t fb i fuel = some evs →
      feedsOk false evs = true ∧
      countWdt evs + 1 = (evs.filter isReadEv).length := by
  intro fuel
  induction fuel with
  | zero =>
    intro i evs h
    simp [pollSense] at h
  | succ fuel ih =>
    intro i evs h
    by_cases hi : fb i = t
    · rw [pollSense, if_pos hi] at h
      cases h
      exact ⟨rfl, rfl⟩
    · rw [pollSense, if_neg hi] at h
      cases hp : pollSense t fb (i + 1) fuel with
      | none =>
        rw [hp] at h
        exact absurd h (by simp)
      | some evs2 =>
        rw [hp] at h
        cases h
        obtain ⟨hf, hc⟩ := ih (i + 1) evs2 hp
        constructor
        · show feedsOk false (IOEvent.digitalReadEv SpotOn3VSense (fb i) ::
            IOEvent.delayEv 100 :: IOEvent.wdtResetEv :: evs2) = true
          show (!false && feedsOk true
            (IOEvent.delayEv 100 :: IOEvent.wdtResetEv :: evs2)) = true
          simpa [feedsOk] using hf
        · show countWdt evs2 + 1 + 1 =
            (IOEvent.digitalReadEv SpotOn3VSense (fb i) ::
              evs2.filter isReadEv).length
          rw [List.length_cons]
          omega

/-! ## Claim theorems: state-machine layer -/

/-- C1: for each of the six defined states, one call of action()
performs exactly the one Device Action Primitive of the section 4.3
table, moves to exactly the one successor of the table, and sets the
threshold to the table value for the new state (1, N, M, 1, N, M with
N = kSpotOnTime and M = kSpotOffTime); moreover every call of action()
invokes exactly one primitive — never zero, never more than one. -/
theorem action_transition_table (q c : Int) :
    (action ⟨Power_Off, q, c⟩ = (⟨Power_On, 1, c⟩, [Prim.powerOn]) ∧
     action ⟨Power_On, q, c⟩ = (⟨Sending_Ok, kSpotOnTime, c⟩, [Prim.sendOK]) ∧
     action ⟨Sending_Ok, q, c⟩ = (⟨Power_Off_2, kSpotOffTime, c⟩, [Prim.powerOff]) ∧
     action ⟨Power_Off_2, q, c⟩ = (⟨Power_On_2, 1, c⟩, [Prim.powerOn]) ∧
     action ⟨Power_On_2, q, c⟩ = (⟨Sending_Custom, kSpotOnTime, c⟩, [Prim.sendCustom]) ∧
     action ⟨Sending_Custom, q, c⟩ = (⟨Power_Off, kSpotOffTime, c⟩, [Prim.powerOff])) ∧
    ∀ s : MachineState, ((action s).2).length = 1 := by
  refine ⟨⟨?_, ?_, ?_, ?_, ?_, ?_⟩, action_length_one⟩ <;>
    simp [action, Power_Off, Power_On, Sending_Ok, Power_Off_2, Power_On_2,
      Sending_Custom]

/-- C4: one call of EightSeconds() increments counter8s; when the
incremented counter has reached q8SecondBlocks it resets the counter to
zero and calls action() exactly once (one primitive) before returning,
leaving counter8s at exactly 0; otherwise it only stores the
incremented counter and calls nothing.  On every state reachable from
setup() the counter stays nonnegative and strictly below the
threshold, so it never exceeds the threshold before a transition
triggers. -/
theorem tick_accumulator_spec :
    (∀ s : MachineState,
      (s.counter8s + 1 < s.q8SecondBlocks →
        EightSeconds s = ({ s with counter8s := s.counter8s + 1 }, [])) ∧
      (s.q8SecondBlocks ≤ s.counter8s + 1 →
        EightSeconds s = action { s with counter8s := 0 } ∧
        ((EightSeconds s).2).length = 1 ∧
        ((EightSeconds s).1).counter8s = 0)) ∧
    ∀ n : Nat, 0 ≤ ((run n).1).counter8s ∧
      ((run n).1).counter8s < ((run n).1).q8SecondBlocks := by
  refine ⟨?_, run_counter_inv⟩
  intro s
  constructor
  · intro h
    unfold EightSeconds
    rw [if_neg (by omega)]
  · intro h
    have he : EightSeconds s = action { s with counter8s := 0 } := by
      unfold EightSeconds
      rw [if_pos h]
    refine ⟨he, ?_, ?_⟩
    · rw [he]
      exact action_length_one _
    · rw [he, action_counter8s]

/-- Witness for C4: at the setup() state the first tick triggers the
transition, and at state Power_On with threshold 5 a single tick only
increments the counter. -/
theorem tick_accumulator_spec_witness :
    EightSeconds ⟨Power_Off, 1, 0⟩ = action ⟨Power_Off, 1, 0⟩ ∧
    EightSeconds ⟨Power_On, 5, 0⟩ = (⟨Power_On, 5, 1⟩, []) := by
  constructor
  · have h := ((tick_accumulator_spec.1 ⟨Power_Off, 1, 0⟩).2 (by decide)).1
    exact h
  · have h := (tick_accumulator_spec.1 ⟨Power_On, 5, 0⟩).1 (by decide)
    exact h

/-- C6: for every state value outside the six defined enumerators,
action() takes the default branch: it performs the power-off
primitive, sets the state to Power_Off and the threshold to
kSpotOffTime (M), recovering in one step. -/
theorem unrecognized_state_recovery (s : MachineState)
    (h : s.SpotGPSState ∉ definedStates) :
    action s =
      ({ s with SpotGPSState := Power_Off, q8SecondBlocks := kSpotOffTime },
       [Prim.powerOff]) := by
  simp only [definedStates, List.mem_cons, List.not_mem_nil, or_false,
    not_or] at h
  obtain ⟨h0, h1, h2, h3, h4, h5⟩ := h
  simp [action, h0, h1, h2, h3, h4, h5]

/-- Witness for C6 at the out-of-range state value 7. -/
theorem unrecognized_state_recovery_witness :
    action ⟨7, 1, 0⟩ = (⟨Power_Off, kSpotOffTime, 0⟩, [Prim.powerOff]) := by
  have h := unrecognized_state_recovery ⟨7, 1, 0⟩ (by decide)
  simpa using h

/-- C10: immediately after setup() and immediately after any call of
action() — whatever the state value beforehand — SpotGPSState is one of
the six defined enumerators and q8SecondBlocks is 1, kSpotOnTime or
kSpotOffTime, hence at least 1. -/
theorem state_and_threshold_always_defined :
    (setupState.SpotGPSState ∈ definedStates ∧
     setupState.q8SecondBlocks ∈ ([1, kSpotOnTime, kSpotOffTime] : List Int) ∧
     1 ≤ setupState.q8SecondBlocks) ∧
    ∀ s : MachineState,
      ((action s).1).SpotGPSState ∈ definedStates ∧
      ((action s).1).q8SecondBlocks ∈ ([1, kSpotOnTime, kSpotOffTime] : List Int) ∧
      1 ≤ ((action s).1).q8SecondBlocks := by
  refine ⟨by decide, fun s => ⟨(action_establishes_inv s).1,
    (action_establishes_inv s).2, action_q_pos s⟩⟩

/-- Counterexample to C2: delivering 1 + N + 1 + N = 78 ticks from the
setup() state leaves the machine in Power_Off_2 — not Power_Off — with
only three primitives invoked (power-on once, not twice). -/
theorem full_cycle_78_ticks_fails :
    ((run (1 + 38 + 1 + 38)).1).SpotGPSState = Power_Off_2 ∧
    Power_Off_2 ≠ Power_Off ∧
    ((run (1 + 38 + 1 + 38)).2).map Prod.snd =
      [Prim.powerOn, Prim.sendOK, Prim.powerOff] := by
  decide

/-- C2 (amended): delivering 1 + 1 + N + M + 1 + N = 139 ticks from
the setup() state returns the machine to Power_Off having invoked
exactly power-on, send-message-A, power-off, power-on, send-message-B,
power-off in that order — power-on twice, power-off twice, each
message once. -/
theorem full_cycle_139_ticks :
    ((run (1 + 1 + 38 + 60 + 1 + 38)).1).SpotGPSState = Power_Off ∧
    ((run (1 + 1 + 38 + 60 + 1 + 38)).2).map Prod.snd =
      [Prim.powerOn, Prim.sendOK, Prim.powerOff,
       Prim.powerOn, Prim.sendCustom, Prim.powerOff] := by
  decide

/-- Counterexample to C3: from cold start the primitives do not fire at
ticks 1, 39, 99, 100, 138, 198 as claimed. -/
theorem fire_schedule_claimed_fails :
    ¬ ((run 198).2 =
        [(1, Prim.powerOn), (39, Prim.sendOK), (99, Prim.powerOff),
         (100, Prim.powerOn), (138, Prim.sendCustom),
         (198, Prim.powerOff)]) := by
  decide

/-- C3 (amended): with settle 1, N = 38, M = 60, from cold start the
primitives fire at ticks 1 (power-on), 2 (send-message-A), 40
(power-off), 100 (power-on), 101 (send-message-B), 139 (power-off),
and from tick 1 onwards the whole machine state repeats with period
exactly 198 ticks, so the same firing pattern repeats every 198
ticks. -/
theorem fire_schedule :
    ((run 198).2 =
      [(1, Prim.powerOn), (2, Prim.sendOK), (40, Prim.powerOff),
       (100, Prim.powerOn), (101, Prim.sendCustom),
       (139, Prim.powerOff)]) ∧
    ∀ t : Nat, 1 ≤ t → (run (t + 198)).1 = (run t).1 := by
  constructor
  · decide
  · intro t ht
    obtain ⟨k, rfl⟩ : ∃ k, t = 1 + k := ⟨t - 1, by omega⟩
    have base : (run 199).1 = (run 1).1 := by decide
    have hs := run_state_shift 199 1 base k
    have e : 1 + k + 198 = 199 + k := by omega
    rw [e, hs]

/-- Witness for C3 (amended) at t = 1: the state one full period after
the first tick equals the state at the first tick. -/
theorem fire_schedule_witness : (run (1 + 198)).1 = (run 1).1 :=
  fire_schedule.2 1 (by norm_num)

/-! ## Claim theorems: Device Action Primitives -/

/-- The polling loop never touches the LED. -/
theorem pollSense_no_led (t : Bool) (fb : Nat → Bool) (fuel i : Nat)
    (evs : List IOEvent) (h : pollSense t fb i fuel = some evs) :
    evs.filter isLedEvent = [] := by
  rw [List.filter_eq_nil_iff]
  intro e he
  rcases pollSense_events t fb fuel i evs h e he with ⟨v, rfl⟩ | rfl | rfl <;>
    simp [isLedEvent]

/-- C5: when the feedback line already reads HIGH, Spot_Turn_On()
returns after the initial sense read without any digitalWrite and
without configuring any pin as an output — no button assertion, all
output lines untouched; symmetrically, when the feedback line already
reads LOW, Spot_Turn_Off() asserts nothing. -/
theorem idempotent_no_button_assertion :
    (∀ (fb : Nat → Bool) (fuel : Nat), fb 0 = true →
      ∃ evs, Spot_Turn_On fb fuel = some evs ∧
        ∀ e ∈ evs, drivesPin e = false) ∧
    (∀ (fb : Nat → Bool) (fuel : Nat), fb 0 = false →
      ∃ evs, Spot_Turn_Off fb fuel = some evs ∧
        ∀ e ∈ evs, drivesPin e = false) := by
  constructor
  · intro fb fuel hfb
    refine ⟨[IOEvent.pinModeEv SpotOn3VSense PinMode.input,
             IOEvent.digitalReadEv SpotOn3VSense (fb 0)], ?_, ?_⟩
    · unfold Spot_Turn_On
      rw [if_neg (by simp [hfb])]
    · intro e he
      simp only [List.mem_cons, List.not_mem_nil, or_false] at he
      rcases he with rfl | rfl <;> rfl
  · intro fb fuel hfb
    refine ⟨[IOEvent.pinModeEv SpotOn3VSense PinMode.input,
             IOEvent.digitalReadEv SpotOn3VSense (fb 0)], ?_, ?_⟩
    · unfold Spot_Turn_Off
      rw [if_neg (by simp [hfb])]
    · intro e he
      simp only [List.mem_cons, List.not_mem_nil, or_false] at he
      rcases he with rfl | rfl <;> rfl

/-- Witness for C5: feedback constantly HIGH makes Spot_Turn_On a
no-op, and feedback constantly LOW makes Spot_Turn_Off a no-op. -/
theorem idempotent_no_button_assertion_witness :
    (∃ evs, Spot_Turn_On (fun _ => true) 0 = some evs ∧
      ∀ e ∈ evs, drivesPin e = false) ∧
    (∃ evs, Spot_Turn_Off (fun _ => false) 0 = some evs ∧
      ∀ e ∈ evs, drivesPin e = false) :=
  ⟨idempotent_no_button_assertion.1 (fun _ => true) 0 rfl,
   idempotent_no_button_assertion.2 (fun _ => false) 0 rfl⟩

/-- C7: when the feedback line first reads LOW, Spot_Turn_On() presses
the power button and then polls the line with a fixed 100 ms interval;
it terminates (for some fuel) exactly when some later read returns
HIGH — with no timeout — and every terminating trace ends by releasing
the power button (write HIGH, pin back to input) before the LED-off
release.  Symmetrically for Spot_Turn_Off() with LOW. -/
theorem power_polling_termination :
    (∀ fb : Nat → Bool, fb 0 = false →
      ((∃ fuel evs, Spot_Turn_On fb fuel = some evs) ↔
        ∃ n, 1 ≤ n ∧ fb n = true)) ∧
    (∀ (fb : Nat → Bool) (fuel : Nat) (evs : List IOEvent), fb 0 = false →
      Spot_Turn_On fb fuel = some evs →
      (∃ pre, evs = pre ++
        [IOEvent.digitalWriteEv SpotOnOffButton true,
         IOEvent.pinModeEv SpotOnOffButton PinMode.input,
         IOEvent.digitalWriteEv LED false,
         IOEvent.pinModeEv LED PinMode.input]) ∧
      ∀ ms, IOEvent.delayEv ms ∈ evs → ms = 100) ∧
    (∀ fb : Nat → Bool, fb 0 = true →
      ((∃ fuel evs, Spot_Turn_Off fb fuel = some evs) ↔
        ∃ n, 1 ≤ n ∧ fb n = false)) ∧
    (∀ (fb : Nat → Bool) (fuel : Nat) (evs : List IOEvent), fb 0 = true →
      Spot_Turn_Off fb fuel = some evs →
      (∃ pre, evs = pre ++
        [IOEvent.digitalWriteEv SpotOnOffButton true,
         IOEvent.pinModeEv SpotOnOffButton PinMode.input,
         IOEvent.digitalWriteEv LED false,
         IOEvent.pinModeEv LED PinMode.input]) ∧
      ∀ ms, IOEvent.delayEv ms ∈ evs → ms = 100) := by
  refine ⟨?_, ?_, ?_, ?_⟩
  · intro fb hfb
    constructor
    · rintro ⟨fuel, evs, h⟩
      unfold Spot_Turn_On at h
      rw [if_pos hfb] at h
      cases hp : pollSense true fb 1 fuel with
      | none => rw [hp] at h; exact absurd h (by simp)
      | some loopEvs => exact pollSense_found true fb fuel 1 loopEvs hp
    · rintro ⟨n, hn, hf⟩
      obtain ⟨loopEvs, hl⟩ :=
        pollSense_succeeds true fb n 1 ⟨n, hn, by omega, hf⟩
      refine ⟨n, ?_⟩
      unfold Spot_Turn_On
      rw [if_pos hfb, hl]
      exact ⟨_, rfl⟩
  · intro fb fuel evs hfb h
    unfold Spot_Turn_On at h
    rw [if_pos hfb] at h
    cases hp : pollSense true fb 1 fuel with
    | none => rw [hp] at h; exact absurd h (by simp)
    | some loopEvs =>
      rw [hp] at h
      injection h with h
      subst h
      constructor
      · refine ⟨[IOEvent.pinModeEv SpotOn3VSense PinMode.input,
                 IOEvent.digitalReadEv SpotOn3VSense (fb 0),
                 IOEvent.pinModeEv SpotOnOffButton PinMode.output,
                 IOEvent.digitalWriteEv SpotOnOffButton false,
                 IOEvent.pinModeEv LED PinMode.output,
                 IOEvent.digitalWriteEv LED true,
                 IOEvent.pinModeEv SpotOn3VSense PinMode.input] ++ loopEvs, ?_⟩
        rw [List.append_assoc]
      · intro ms hms
        simp only [List.append_assoc, List.mem_append, List.mem_cons,
          List.not_mem_nil, or_false] at hms
        rcases hms with h | h | h
        · exact absurd h (by simp)
        · rcases pollSense_events true fb fuel 1 loopEvs hp _ h with
            ⟨v, hv⟩ | hv | hv
          · exact absurd hv (by simp)
          · injection hv
          · exact absurd hv (by simp)
        · exact absurd h (by simp)
  · intro fb hfb
    constructor
    · rintro ⟨fuel, evs, h⟩
      unfold Spot_Turn_Off at h
      rw [if_pos hfb] at h
      cases hp : pollSense false fb 1 fuel with
      | none => rw [hp] at h; exact absurd h (by simp)
      | some loopEvs => exact pollSense_found false fb fuel 1 loopEvs hp
    · rintro ⟨n, hn, hf⟩
      obtain ⟨loopEvs, hl⟩ :=
        pollSense_succeeds false fb n 1 ⟨n, hn, by omega, hf⟩
      refine ⟨n, ?_⟩
      unfold Spot_Turn_Off
      rw [if_pos hfb, hl]
      exact ⟨_, rfl⟩
  · intro fb fuel evs hfb h
    unfold Spot_Turn_Off at h
    rw [if_pos hfb] at h
    cases hp : pollSense false fb 1 fuel with
    | none => rw [hp] at h; exact absurd h (by simp)
    | some loopEvs =>
      rw [hp] at h
      injection h with h
      subst h
      constructor
      · refine ⟨[IOEvent.pinModeEv SpotOn3VSense PinMode.input,
                 IOEvent.digitalReadEv SpotOn3VSense (fb 0),
                 IOEvent.pinModeEv SpotOnOffButton PinMode.output,
                 IOEvent.digitalWriteEv SpotOnOffButton false,
                 IOEvent.pinModeEv LED PinMode.output,
                 IOEvent.digitalWriteEv LED true,
                 IOEvent.pinModeEv SpotOn3VSense PinMode.input] ++ loopEvs, ?_⟩
        rw [List.append_assoc]
      · intro ms hms
        simp only [List.append_assoc, List.mem_append, List.mem_cons,
          List.not_mem_nil, or_false] at hms
        rcases hms with h | h | h
        · exact absurd h (by simp)
        · rcases pollSense_events false fb fuel 1 loopEvs hp _ h with
            ⟨v, hv⟩ | hv | hv
          · exact absurd hv (by simp)
          · injection hv
          · exact absurd hv (by simp)
        · exact absurd h (by simp)

/-- Witness for C7: with feedback LOW at the initial read and HIGH from
the first poll on, Spot_Turn_On terminates, so the feedback was
eventually HIGH. -/
theorem power_polling_termination_witness :
    ∃ n, 1 ≤ n ∧ (fun k => decide (1 ≤ k)) n = true :=
  (power_polling_termination.1 (fun k => decide (1 ≤ k)) (by decide)).mp
    ⟨1, [IOEvent.pinModeEv SpotOn3VSense PinMode.input,
         IOEvent.digitalReadEv SpotOn3VSense false,
         IOEvent.pinModeEv SpotOnOffButton PinMode.output,
         IOEvent.digitalWriteEv SpotOnOffButton false,
         IOEvent.pinModeEv LED PinMode.output,
         IOEvent.digitalWriteEv LED true,
         IOEvent.pinModeEv SpotOn3VSense PinMode.input,
         IOEvent.digitalReadEv SpotOn3VSense true,
         IOEvent.digitalWriteEv SpotOnOffButton true,
         IOEvent.pinModeEv SpotOnOffButton PinMode.input,
         IOEvent.digitalWriteEv LED false,
         IOEvent.pinModeEv LED PinMode.input], by decide⟩

/-- C8: every completed run of the feedback-polling loop inside
Spot_Turn_On (and Spot_Turn_Off) feeds the watchdog between any two
sense reads — feedsOk — and exactly once per completed iteration, so
the watchdog never goes unfed longer than one poll interval inside the
loop. -/
theorem polling_feeds_watchdog :
    (∀ (fb : Nat → Bool) (fuel : Nat) (evs : List IOEvent), fb 0 = false →
      Spot_Turn_On fb fuel = some evs →
      ∃ loopEvs pre post,
        pollSense true fb 1 fuel = some loopEvs ∧
        evs = pre ++ loopEvs ++ post ∧
        feedsOk false loopEvs = true ∧
        countWdt loopEvs + 1 = (loopEvs.filter isReadEv).length) ∧
    (∀ (fb : Nat → Bool) (fuel : Nat) (evs : List IOEvent), fb 0 = true →
      Spot_Turn_Off fb fuel = some evs →
      ∃ loopEvs pre post,
        pollSense false fb 1 fuel = some loopEvs ∧
        evs = pre ++ loopEvs ++ post ∧
        feedsOk false loopEvs = true ∧
        countWdt loopEvs + 1 = (loopEvs.filter isReadEv).length) := by
  constructor
  · intro fb fuel evs hfb h
    unfold Spot_Turn_On at h
    rw [if_pos hfb] at h
    cases hp : pollSense true fb 1 fuel with
    | none => rw [hp] at h; exact absurd h (by simp)
    | some loopEvs =>
      rw [hp] at h
      injection h with h
      subst h
      obtain ⟨hf, hc⟩ := pollSense_feeds true fb fuel 1 loopEvs hp
      exact ⟨loopEvs, _, _, rfl, rfl, hf, hc⟩
  · intro fb fuel evs hfb h
    unfold Spot_Turn_Off at h
    rw [if_pos hfb] at h
    cases hp : pollSense false fb 1 fuel with
    | none => rw [hp] at h; exact absurd h (by simp)
    | some loopEvs =>
      rw [hp] at h
      injection h with h
      subst h
      obtain ⟨hf, hc⟩ := pollSense_feeds false fb fuel 1 loopEvs hp
      exact ⟨loopEvs, _, _, rfl, rfl, hf, hc⟩

/-- Witness for C8: a run whose loop makes one full iteration before
the feedback goes HIGH. -/
theorem polling_feeds_watchdog_witness :
    ∃ loopEvs pre post,
      pollSense true (fun k => decide (2 ≤ k)) 1 2 = some loopEvs ∧
      ([IOEvent.pinModeEv SpotOn3VSense PinMode.input,
        IOEvent.digitalReadEv SpotOn3VSense false,
        IOEvent.pinModeEv SpotOnOffButton PinMode.output,
        IOEvent.digitalWriteEv SpotOnOffButton false,
        IOEvent.pinModeEv LED PinMode.output,
        IOEvent.digitalWriteEv LED true,
        IOEvent.pinModeEv SpotOn3VSense PinMode.input,
        IOEvent.digitalReadEv SpotOn3VSense false,
        IOEvent.delayEv 100,
        IOEvent.wdtResetEv,
        IOEvent.digitalReadEv SpotOn3VSense true,
        IOEvent.digitalWriteEv SpotOnOffButton true,
        IOEvent.pinModeEv SpotOnOffButton PinMode.input,
        IOEvent.digitalWriteEv LED false,
        IOEvent.pinModeEv LED PinMode.input] : List IOEvent) =
          pre ++ loopEvs ++ post ∧
      feedsOk false loopEvs = true ∧
      countWdt loopEvs + 1 = (loopEvs.filter isReadEv).length :=
  polling_feeds_watchdog.1 (fun k => decide (2 ≤ k)) 2 _ (by decide) (by decide)

/-- Counterexample to C9: an invocation of the power-on primitive with
feedback already HIGH completes without any LED event at all — no
indicator pulse. -/
theorem led_pulse_every_invocation_fails :
    Spot_Turn_On (fun _ => true) 0 =
      some [IOEvent.pinModeEv SpotOn3VSense PinMode.input,
            IOEvent.digitalReadEv SpotOn3VSense true] ∧
    ¬ ledPulse [IOEvent.pinModeEv SpotOn3VSense PinMode.input,
                IOEvent.digitalReadEv SpotOn3VSense true] := by
  constructor
  · decide
  · unfold ledPulse
    decide

/-- C9 (amended): both message primitives always, and the power-on and
power-off primitives whenever they actually perform a button press
(feedback not already at the requested level), light the LED at the
start of the button action and extinguish it at the end: the LED
events of the trace are exactly output-mode, write HIGH, write LOW,
back to input.  The idempotent no-op branches produce no pulse. -/
theorem led_pulse_button_actions :
    ledPulse Spot_Message_OK ∧ ledPulse Spot_Message_Custom ∧
    (∀ (fb : Nat → Bool) (fuel : Nat) (evs : List IOEvent), fb 0 = false →
      Spot_Turn_On fb fuel = some evs → ledPulse evs) ∧
    (∀ (fb : Nat → Bool) (fuel : Nat) (evs : List IOEvent), fb 0 = true →
      Spot_Turn_Off fb fuel = some evs → ledPulse evs) := by
  refine ⟨by unfold ledPulse Spot_Message_OK; decide, by unfold ledPulse Spot_Message_Custom; decide, ?_, ?_⟩
  · intro fb fuel evs hfb h
    unfold Spot_Turn_On at h
    rw [if_pos hfb] at h
    cases hp : pollSense true fb 1 fuel with
    | none => rw [hp] at h; exact absurd h (by simp)
    | some loopEvs =>
      rw [hp] at h
      injection h with h
      subst h
      have hnil := pollSense_no_led true fb fuel 1 loopEvs hp
      unfold ledPulse
      simp [List.filter_append, List.filter, isLedEvent, hnil, LED,
        SpotOn3VSense, SpotOnOffButton]
  · intro fb fuel evs hfb h
    unfold Spot_Turn_Off at h
    rw [if_pos hfb] at h
    cases hp : pollSense false fb 1 fuel with
    | none => rw [hp] at h; exact absurd h (by simp)
    | some loopEvs =>
      rw [hp] at h
      injection h with h
      subst h
      have hnil := pollSense_no_led false fb fuel 1 loopEvs hp
      unfold ledPulse
      simp [List.filter_append, List.filter, isLedEvent, hnil, LED,
        SpotOn3VSense, SpotOnOffButton]

/-- Witness for C9 (amended): a concrete power-on trace carries the
four-event LED pulse. -/
theorem led_pulse_button_actions_witness :
    ledPulse [IOEvent.pinModeEv SpotOn3VSense PinMode.input,
              IOEvent.digitalReadEv SpotOn3VSense false,
              IOEvent.pinModeEv SpotOnOffButton PinMode.output,
              IOEvent.digitalWriteEv SpotOnOffButton false,
              IOEvent.pinModeEv LED PinMode.output,
              IOEvent.digitalWriteEv LED true,
              IOEvent.pinModeEv SpotOn3VSense PinMode.input,
              IOEvent.digitalReadEv SpotOn3VSense true,
              IOEvent.digitalWriteEv SpotOnOffButton true,
              IOEvent.pinModeEv SpotOnOffButton PinMode.input,
              IOEvent.digitalWriteEv LED false,
              IOEvent.pinModeEv LED PinMode.input] :=
  led_pulse_button_actions.2.2.1 (fun k => decide (1 ≤ k)) 1 _
    (by decide) (by decide)

end SPOT2
